import Mathlib

/-!
Verification of the mapposter theme-editing core: OKLCH color parsing
(`parse_oklch_input`, `parse_oklch_palette_block` from `streamlit_ui.py`),
hex color decoding (`hex_to_rgb` from `add_border_to_posters.py`), theme
persistence and the hidden-themes tombstone (`delete_theme_from_file`,
`load_theme_colors`), the GitHub sync protocol (`_save_theme_to_github`,
`_delete_theme_from_github`), and the Replicate retry loop
(`style_with_replicate` from `replicate_style.py`).

Python machine floats are modelled as exact rationals; every rational in the
development is built through `mkRat` on integer numerators and denominators,
so all definitions evaluate by kernel reduction.  The decimal token grammar
models `float()` on sign/digits/point/exponent forms (the `inf`/`nan` and
underscore spellings and non-ASCII digits are outside the model).  Strings
are handled as `List Char`.
-/

/-- ASCII whitespace characters recognised by Python's `str.strip` and the
regex class `\s` (the non-ASCII Unicode spaces are outside the model). -/
def isSpaceChar (c : Char) : Bool :=
  c = ' ' || c = '\t' || c = '\n' || c = '\r' || c = '\x0b' || c = '\x0c'

/-- Python `str.strip()`: drop leading and trailing whitespace. -/
def trimChars (s : List Char) : List Char :=
  ((s.dropWhile isSpaceChar).reverse.dropWhile isSpaceChar).reverse

/-- Numeric value of an ASCII digit. -/
def digitVal (c : Char) : Nat := c.toNat - '0'.toNat

/-- Value of a digit string read in base 10. -/
def digitsToNat (s : List Char) : Nat :=
  s.foldl (fun acc c => acc * 10 + digitVal c) 0

/-- All characters are ASCII decimal digits. -/
def allDigits (s : List Char) : Bool := s.all Char.isDigit

/-- Split at the first character satisfying `p`: returns the part before it
and, when found, the part after it. -/
def breakAt (p : Char → Bool) : List Char → List Char × Option (List Char)
  | [] => ([], none)
  | c :: rest =>
    if p c then ([], some rest)
    else
      let r := breakAt p rest
      (c :: r.1, r.2)

/-- Python `float()` on an unsigned mantissa (`digits`, `digits.digits`,
`digits.`, `.digits`, at least one digit overall), as an exact
numerator/denominator pair. -/
def parseMantissaParts (s : List Char) : Option (Nat × Nat) :=
  match breakAt (fun c => c = '.') s with
  | (ip, none) =>
    if ip ≠ [] ∧ allDigits ip then some (digitsToNat ip, 1) else none
  | (ip, some fp) =>
    if allDigits ip ∧ allDigits fp ∧ (ip ≠ [] ∨ fp ≠ []) then
      some (digitsToNat (ip ++ fp), 10 ^ fp.length)
    else none

/-- Exponent part after `e`/`E`: optional sign then digits. -/
def parseExpDigits (s : List Char) : Option Int :=
  match s with
  | '+' :: rest => if rest ≠ [] ∧ allDigits rest then some (digitsToNat rest : Int) else none
  | '-' :: rest => if rest ≠ [] ∧ allDigits rest then some (-(digitsToNat rest : Int)) else none
  | _ => if s ≠ [] ∧ allDigits s then some (digitsToNat s : Int) else none

/-- Scale a numerator/denominator pair by `10 ^ e`. -/
def applyExp (n d : Nat) (e : Int) : Nat × Nat :=
  match e with
  | .ofNat k => (n * 10 ^ k, d)
  | .negSucc k => (n, d * 10 ^ (k + 1))

/-- Python `float(token)` as an exact rational: optional sign, mantissa,
optional `e`/`E` exponent; `none` models a raised `ValueError`. -/
def parseDecimal (s : List Char) : Option Rat :=
  match s with
  | '+' :: rest => (parseDecimalCore rest).map fun p => mkRat p.1 p.2
  | '-' :: rest => (parseDecimalCore rest).map fun p => mkRat (-(p.1 : Int)) p.2
  | _ => (parseDecimalCore s).map fun p => mkRat p.1 p.2
where
  parseDecimalCore (t : List Char) : Option (Nat × Nat) :=
    match breakAt (fun c => c = 'e' || c = 'E') t with
    | (m, none) => parseMantissaParts m
    | (m, some ex) =>
      match parseMantissaParts m, parseExpDigits ex with
      | some mv, some e => some (applyExp mv.1 mv.2 e)
      | _, _ => none

/-- Python `token.replace("%", "")`: remove every percent sign. -/
def removePercent (s : List Char) : List Char := s.filter (fun c => c ≠ '%')

/-- Separator class of the split regex `[\s,]+`. -/
def isSepChar (c : Char) : Bool := c = ',' || isSpaceChar c

/-- Model of `re.split(r"[\s,]+", raw)` followed by dropping empty parts. -/
def splitTokens : List Char → List (List Char) :=
  go []
where
  go (acc : List Char) : List Char → List (List Char)
    | [] => if acc = [] then [] else [acc.reverse]
    | c :: rest =>
      if isSepChar c then
        if acc = [] then go [] rest else acc.reverse :: go [] rest
      else go (c :: acc) rest

/-- The lazy group of `oklch\s*\(\s*(.+?)\s*\)`: scan for the earliest `)`
such that the trimmed text before it is non-empty; `acc` holds the scanned
characters in reverse. -/
def wrapBody (acc : List Char) : List Char → Option (List Char)
  | [] => none
  | c :: rest =>
    if c = ')' then
      let content := trimChars acc.reverse
      if content ≠ [] then some content else wrapBody (c :: acc) rest
    else wrapBody (c :: acc) rest

/-- Model of `re.match(r"oklch\s*\(\s*(.+?)\s*\)", raw, re.I | re.DOTALL)`: when the
input starts with a case-insensitive `oklch ( … )` wrapper, replace it by the
group; otherwise the input is unchanged. -/
def stripWrapper (s : List Char) : List Char :=
  if (s.take 5).map Char.toLower = "oklch".data then
    let rest := (s.drop 5).dropWhile isSpaceChar
    match rest with
    | '(' :: inner =>
      match wrapBody [] inner with
      | some content => content
      | none => s
    | _ => s
  else s

/-- The OKLCH in-range check of `parse_oklch_input`:
`0 <= l_val <= 1 and 0 <= c_val <= 0.5 and 0 <= h_val <= 360`. -/
def oklchInRange (l c h : Rat) : Prop :=
  0 ≤ l ∧ l ≤ 1 ∧ 0 ≤ c ∧ c ≤ mkRat 1 2 ∧ 0 ≤ h ∧ h ≤ 360

instance (l c h : Rat) : Decidable (oklchInRange l c h) := by
  unfold oklchInRange
  infer_instance

/-- The statement `if l_val > 1: l_val /= 100` of `parse_oklch_input`:
divide the parsed first value by 100 exactly when it exceeds 1. -/
def normalizeL (l : Rat) : Rat := if 1 < l then mkRat l.num (l.den * 100) else l

/-- Embedding of `streamlit_ui.parse_oklch_input` on a character list: strip, strip the
`oklch(...)` wrapper, split on commas/whitespace, require three numeric
tokens (percent signs removed from the first, which is divided by 100 when
above 1), and range-check the result. -/
def parseOklchChars (raw : List Char) : Option (Rat × Rat × Rat) :=
  if trimChars raw = [] then none
  else
    match splitTokens (stripWrapper (trimChars raw)) with
    | p0 :: p1 :: p2 :: _ =>
      match parseDecimal (removePercent p0) with
      | none => none
      | some l =>
        match parseDecimal p1 with
        | none => none
        | some c =>
          match parseDecimal p2 with
          | none => none
          | some h =>
            if oklchInRange (normalizeL l) c h
            then some (normalizeL l, c, h) else none
    | _ => none

/-- Embedding of `streamlit_ui.parse_oklch_input`. -/
def parse_oklch_input (raw : String) : Option (Rat × Rat × Rat) :=
  parseOklchChars raw.data

/-- The token values of `parse_oklch_input` before the percent normalisation
and the range check: the result of the three `float()` calls. -/
def rawOklchValues (raw : List Char) : Option (Rat × Rat × Rat) :=
  if trimChars raw = [] then none
  else
    match splitTokens (stripWrapper (trimChars raw)) with
    | p0 :: p1 :: p2 :: _ =>
      match parseDecimal (removePercent p0) with
      | none => none
      | some l =>
        match parseDecimal p1 with
        | none => none
        | some c =>
          match parseDecimal p2 with
          | none => none
          | some h => some (l, c, h)
    | _ => none

theorem parseOklch_eq_check (raw : List Char) :
    parseOklchChars raw =
      (rawOklchValues raw).bind fun v =>
        if oklchInRange (normalizeL v.1) v.2.1 v.2.2
        then some (normalizeL v.1, v.2.1, v.2.2) else none := by
  unfold parseOklchChars rawOklchValues
  split
  · rfl
  · split
    · rename_i p0 p1 p2 rest heq
      cases parseDecimal (removePercent p0) with
      | none => rfl
      | some l =>
        cases parseDecimal p1 with
        | none => rfl
        | some c =>
          cases parseDecimal p2 with
          | none => rfl
          | some h => rfl
    · rfl

example : parse_oklch_input "1.2, 0.1, 10" = some (mkRat 3 250, mkRat 1 10, 10) := by decide

example : parse_oklch_input "oklch(72.6% 0.129 253.06)" =
    some (mkRat 363 500, mkRat 129 1000, mkRat 12653 50) := by decide

example : parse_oklch_input "150, 0.1, 10" = none := by decide

example : parse_oklch_input "oklch(0.9% 0.1 10)" = some (mkRat 9 10, mkRat 1 10, 10) := by
  decide

/-- The en-dash character normalised by `_norm` (`"–"`). -/
def enDash : Char := '–'

/-- Python `str.replace("  ", " ")`: collapse non-overlapping double spaces,
left to right. -/
def collapseDoubleSpace : List Char → List Char
  | ' ' :: ' ' :: rest => ' ' :: collapseDoubleSpace rest
  | c :: rest => c :: collapseDoubleSpace rest
  | [] => []

/-- Embedding of `streamlit_ui._norm`: strip, lowercase, replace en-dashes by hyphens,
collapse double spaces (ASCII lowercasing; the labels in play are ASCII
apart from the en-dash). -/
def _norm (s : List Char) : List Char :=
  collapseDoubleSpace
    (((trimChars s).map Char.toLower).map fun c => if c = enDash then '-' else c)

/-- Embedding of `streamlit_ui.OKLCH_LABEL_TO_KEY`. -/
def OKLCH_LABEL_TO_KEY : List (String × String) :=
  [("background", "bg"),
   ("text", "text"),
   ("gradient", "gradient_color"),
   ("water", "water"),
   ("parks", "parks"),
   ("road - motorway", "road_motorway"),
   ("road - primary", "road_primary"),
   ("road - secondary", "road_secondary"),
   ("road - tertiary", "road_tertiary"),
   ("road - residential", "road_residential"),
   ("road - default", "road_default"),
   ("road_motorway", "road_motorway"),
   ("road_primary", "road_primary"),
   ("road_secondary", "road_secondary"),
   ("road_tertiary", "road_tertiary"),
   ("road_residential", "road_residential"),
   ("road_default", "road_default")]

/-- Python `label.replace("road - ", "")`: remove every occurrence of the
seven-character pattern `road - `, scanning left to right. -/
def removeRoadDash : List Char → List Char
  | 'r' :: 'o' :: 'a' :: 'd' :: ' ' :: '-' :: ' ' :: rest => removeRoadDash rest
  | c :: rest => c :: removeRoadDash rest
  | [] => []

/-- Table lookup for a normalised label, with the `road - ` fallback of
`parse_oklch_palette_block`. -/
def labelToKey (lab : List Char) : Option String :=
  match (OKLCH_LABEL_TO_KEY.find? fun p => p.1.data == lab) with
  | some p => some p.2
  | none => (OKLCH_LABEL_TO_KEY.find? fun p => p.1.data == removeRoadDash lab).map Prod.snd

/-- Python `str.splitlines()` on the line boundaries `\r\n`, `\n`, `\r`
(the rarer Unicode boundaries are outside the model). -/
def splitLinesPy : List Char → List (List Char) :=
  go []
where
  go (acc : List Char) : List Char → List (List Char)
    | [] => if acc = [] then [] else [acc.reverse]
    | '\r' :: '\n' :: rest => acc.reverse :: go [] rest
    | '\n' :: rest => acc.reverse :: go [] rest
    | '\r' :: rest => acc.reverse :: go [] rest
    | c :: rest => go (c :: acc) rest

/-- Python `line.split(":", 1)` guarded by `":" in line`: the part before the first
colon and the part after it, or `none` when there is no colon. -/
def splitColon : List Char → Option (List Char × List Char)
  | [] => none
  | ':' :: rest => some ([], rest)
  | c :: rest => (splitColon rest).map fun p => (c :: p.1, p.2)

/-- One line of `parse_oklch_palette_block`: the theme key and parsed OKLCH
value the line contributes, or `none` when the line is skipped (no colon,
unparseable value, or unrecognised label). -/
def lineKeyVal (line : List Char) : Option (String × (Rat × Rat × Rat)) :=
  match splitColon (trimChars line) with
  | none => none
  | some (lab, rest) =>
    match parseOklchChars (trimChars rest) with
    | none => none
    | some lch =>
      match labelToKey (_norm lab) with
      | some k => some (k, lch)
      | none => none

/-- The theme key a line contributes, when any. -/
def lineKey (line : List Char) : Option String := (lineKeyVal line).map Prod.fst

/-- Python dict insertion `result[key] = v`: update in place when the key is
present, else append. -/
def dictInsert (d : List (String × String)) (k v : String) : List (String × String) :=
  if (d.lookup k).isSome then d.map fun p => if p.1 = k then (k, v) else p
  else d ++ [(k, v)]

/-- The line loop of `parse_oklch_palette_block`, parameterised by the
`HAS_OKLCH` flag and the `oklch_to_hex` conversion. -/
def processLines (hasOklch : Bool) (toHex : Rat → Rat → Rat → String) :
    List (List Char) → List (String × String) → List (String × String)
  | [], d => d
  | line :: rest, d =>
    match lineKeyVal line with
    | some kv =>
      if hasOklch then
        processLines hasOklch toHex rest (dictInsert d kv.1 (toHex kv.2.1 kv.2.2.1 kv.2.2.2))
      else processLines hasOklch toHex rest d
    | none => processLines hasOklch toHex rest d

/-- Embedding of `streamlit_ui.parse_oklch_palette_block`, parameterised by the
`HAS_OKLCH` flag and the `oklch_to_hex` conversion (the colour-space math of
the `colour` library is kept abstract): `none` is the "nothing parsed"
signal. -/
def parse_oklch_palette_block (hasOklch : Bool) (toHex : Rat → Rat → Rat → String)
    (block : String) : Option (List (String × String)) :=
  if trimChars block.data = [] then none
  else
    let result := processLines hasOklch toHex (splitLinesPy (trimChars block.data)) []
    if result = [] then none else some result

/-- The lines the block loop iterates over: `block.strip().splitlines()`. -/
def blockLines (block : String) : List (List Char) :=
  splitLinesPy (trimChars block.data)

/-- Placeholder conversion used to instantiate `toHex` in concrete tests. -/
def hxConst : Rat → Rat → Rat → String := fun _ _ _ => "#000000"

example :
    parse_oklch_palette_block true hxConst
      "Background: 0.5 0.1 10\nText: 0.9 0.1 20\njunk" =
      some [("bg", "#000000"), ("text", "#000000")] := by decide

example :
    parse_oklch_palette_block true hxConst
      "Background: 0.5 0.1 10\nBackground: 0.6 0.1 10\njunk" =
      some [("bg", "#000000")] := by decide

example : parse_oklch_palette_block true hxConst "Road – primary: 0.5 0.1 10" =
    some [("road_primary", "#000000")] := by decide

example : parse_oklch_palette_block false hxConst "Background: 0.5 0.1 10" = none := by
  decide

example : parse_oklch_palette_block true hxConst "nonsense" = none := by decide

/-- ASCII hexadecimal digit. -/
def isHexDigit (c : Char) : Bool :=
  c.isDigit || ('a' ≤ c ∧ c ≤ 'f') || ('A' ≤ c ∧ c ≤ 'F')

/-- Numeric value of a hexadecimal digit. -/
def hexVal (c : Char) : Nat :=
  if c.isDigit then c.toNat - '0'.toNat
  else if 'a' ≤ c ∧ c ≤ 'f' then c.toNat - 'a'.toNat + 10
  else c.toNat - 'A'.toNat + 10

/-- Python `int(s, 16)` on the slice strings arising in `hex_to_rgb`: a
non-empty run of hexadecimal digits (sign, whitespace and `0x` spellings are
outside the model); `none` models a raised `ValueError`. -/
def parseHexSlice (s : List Char) : Option Nat :=
  if s ≠ [] ∧ s.all isHexDigit then
    some (s.foldl (fun acc c => acc * 16 + hexVal c) 0)
  else none

/-- Python slice `s[a:b]`. -/
def pySlice (s : List Char) (a b : Nat) : List Char := (s.drop a).take (b - a)

/-- Embedding of `add_border_to_posters.hex_to_rgb`: strip leading `#` characters and
parse the slices `[0:2]`, `[2:4]`, `[4:6]`; `none` models the `ValueError`
raised on a non-hex or empty slice. -/
def hex_to_rgb (s : String) : Option (Nat × Nat × Nat) :=
  let t := s.data.dropWhile (fun c => c = '#')
  match parseHexSlice (pySlice t 0 2), parseHexSlice (pySlice t 2 4),
      parseHexSlice (pySlice t 4 6) with
  | some r, some g, some b => some (r, g, b)
  | _, _, _ => none

example : hex_to_rgb "#8B4513" = some (139, 69, 19) := by decide
example : hex_to_rgb "8B4513" = some (139, 69, 19) := by decide
example : hex_to_rgb "8B451" = some (139, 69, 1) := by decide
example : hex_to_rgb "8B45" = none := by decide
example : hex_to_rgb "8B4513FF" = some (139, 69, 19) := by decide
example : hex_to_rgb "8B451G" = none := by decide

/-- Embedding of `streamlit_ui.THEME_KEYS`: the 11 role keys of a theme. -/
def THEME_KEYS : List String :=
  ["bg", "text", "water", "parks", "gradient_color",
   "road_motorway", "road_primary", "road_secondary", "road_tertiary",
   "road_residential", "road_default"]

/-- Embedding of `streamlit_ui.DEFAULT_THEME`: the hard-coded default theme record. -/
def DEFAULT_THEME : List (String × String) :=
  [("name", "Custom"),
   ("description", "Custom theme created in Streamlit UI"),
   ("bg", "#F5EDE4"),
   ("text", "#8B4513"),
   ("gradient_color", "#F5EDE4"),
   ("water", "#A8C4C4"),
   ("parks", "#E8E0D0"),
   ("road_motorway", "#A0522D"),
   ("road_primary", "#B8653A"),
   ("road_secondary", "#C9846A"),
   ("road_tertiary", "#D9A08A"),
   ("road_residential", "#E5C4B0"),
   ("road_default", "#D9A08A")]

/-- Modelled from the spec: `create_map_poster.load_theme` is not part of the
analysed sources; per §4.3 it reads the stored theme record when the file is
present, and an absent file degrades to an empty record (all keys filled from
defaults downstream). -/
def load_theme (stored : Option (List (String × String))) : List (String × String) :=
  stored.getD []

/-- Embedding of `streamlit_ui.load_theme_colors`, with the stored record passed
explicitly in place of the filesystem read. -/
def load_theme_colors (theme_name : String) (stored : Option (List (String × String))) :
    List (String × String) :=
  if theme_name = "" ∨ theme_name = "From scratch" then DEFAULT_THEME
  else
    THEME_KEYS.map fun k =>
      (k, ((load_theme stored).lookup k).getD ((DEFAULT_THEME.lookup k).getD "#000000"))

/-- Embedding of `streamlit_ui.delete_theme_from_file` restricted to its effect on the
hidden-themes list and its return value: the GitHub deletion attempt is
best-effort (its failure is ignored) and the local file unlink does not touch
the hidden list. -/
def delete_theme_from_file (hidden : List String) (theme_id : String) :
    List String × (Bool × String) :=
  if theme_id = "" ∨ theme_id = "From scratch" then
    (hidden, (false, "Cannot delete default theme"))
  else
    let hidden' := if theme_id ∈ hidden then hidden else hidden ++ [theme_id]
    (hidden', (true, "Deleted theme: " ++ theme_id))

/-- The "available" theme listing of the UI:
`["From scratch"] + [t for t in get_available_themes() if t not in hidden]`,
with `create_map_poster.get_available_themes` (not part of the analysed
sources) passed as an arbitrary id list. -/
def availableThemes (themes : List String) (hidden : List String) : List String :=
  "From scratch" :: themes.filter fun t => decide (t ∉ hidden)

/-- A sequence of subsequent delete operations applied to the hidden list. -/
def runDeletes (hidden : List String) : List String → List String
  | [] => hidden
  | id :: rest => runDeletes (delete_theme_from_file hidden id).1 rest

example : (delete_theme_from_file ["a"] "b").1 = ["a", "b"] := by decide
example : availableThemes ["a", "b", "c"] ["b"] = ["From scratch", "a", "c"] := by decide

/-- A request issued against the GitHub contents API. -/
inductive GhRequest
  | get (path : String)
  | put (path : String) (sha : Option String)
  | del (path : String) (sha : String)
deriving DecidableEq

/-- Python truthiness of the token fetched from secrets or the environment:
`if not token`. -/
def tokenMissing (token : Option String) : Bool :=
  match token with
  | none => true
  | some s => s = ""

/-- Embedding of `streamlit_ui._save_theme_to_github`: the remote store is modelled as a
function from path to the GET response (`none` = non-200; `some shaField` =
200 with optional `sha` field), and `putStatus` as the status of the `PUT`.
Returns the `(success, message)` pair and the trace of issued requests. -/
def _save_theme_to_github (token : Option String) (filename : String)
    (remote : String → Option (Option String)) (putStatus : Nat) :
    (Bool × String) × List GhRequest :=
  if tokenMissing token then
    ((false, "GITHUB_TOKEN not configured (add to Streamlit secrets for Cloud)"), [])
  else
    let path := "themes/" ++ filename ++ ".json"
    let sha : Option String :=
      match remote path with
      | some (some s) => if s = "" then none else some s
      | _ => none
    let reqs := [GhRequest.get path, GhRequest.put path sha]
    if putStatus = 200 ∨ putStatus = 201 then
      ((true, "Saved to GitHub (themes/" ++ filename ++ ".json)"), reqs)
    else ((false, "error message from response"), reqs)

/-- Embedding of `streamlit_ui._delete_theme_from_github`: same remote model as
`_save_theme_to_github`; `delStatus` is the status of the `DELETE`. -/
def _delete_theme_from_github (token : Option String) (filename : String)
    (remote : String → Option (Option String)) (delStatus : Nat) :
    (Bool × String) × List GhRequest :=
  if tokenMissing token then ((false, "GITHUB_TOKEN not configured"), [])
  else
    let path := "themes/" ++ filename ++ ".json"
    match remote path with
    | none => ((false, "Theme not found on GitHub"), [GhRequest.get path])
    | some shaField =>
      match shaField with
      | none => ((false, "Could not get file SHA"), [GhRequest.get path])
      | some s =>
        if s = "" then ((false, "Could not get file SHA"), [GhRequest.get path])
        else
          let reqs := [GhRequest.get path, GhRequest.del path s]
          if delStatus = 200 then
            ((true, "Deleted from GitHub (themes/" ++ filename ++ ".json)"), reqs)
          else ((false, "error message from response"), reqs)

example :
    (_save_theme_to_github (some "tok") "night" (fun _ => none) 201).2 =
      [GhRequest.get "themes/night.json", GhRequest.put "themes/night.json" none] := by
  decide

example :
    (_save_theme_to_github (some "tok") "night" (fun _ => some (some "abc")) 200).2 =
      [GhRequest.get "themes/night.json",
       GhRequest.put "themes/night.json" (some "abc")] := by decide

/-- One backend response of the Replicate model: a successful run returning
a (non-`None`) output, or a raised exception carrying a message. -/
inductive BackendResp
  | ok (out : String)
  | err (msg : String)

/-- Substring test, modelling Python's `in` on strings. -/
def containsSub (pat : List Char) : List Char → Bool
  | [] => pat = []
  | c :: rest => pat.isPrefixOf (c :: rest) || containsSub pat rest

/-- The test `"429" in err_str or "throttl" in err_str` on the lowercased error
text. -/
def rateLimited (e : String) : Bool :=
  containsSub "429".data (e.data.map Char.toLower) ||
    containsSub "throttl".data (e.data.map Char.toLower)

/-- The test `"image" in err_str or "unexpected" in err_str or "invalid" in err_str`
on the lowercased error text. -/
def imageErr (e : String) : Bool :=
  containsSub "image".data (e.data.map Char.toLower) ||
    containsSub "unexpected".data (e.data.map Char.toLower) ||
    containsSub "invalid".data (e.data.map Char.toLower)

/-- Exit of the inner retry loop of `style_with_replicate`: an output was
obtained, the input-modality fallback was triggered, or the job failed. -/
inductive InnerOut
  | got (out : String)
  | switch
  | failed

/-- The inner `for retry in range(max_retries)` loop of
`style_with_replicate`: consumes one backend response per iteration;
`retriesLeft` counts the remaining iterations (`retry < max_retries - 1`
holds exactly when at least two remain), `sleeps` counts the
`REPLICATE_RETRY_WAIT` backoff sleeps.  Returns the exit, the unconsumed
responses and the sleep count. -/
def innerRun (firstAttempt : Bool) :
    List BackendResp → Nat → Nat → InnerOut × List BackendResp × Nat
  | _, 0, sleeps => (.failed, [], sleeps)
  | [], _ + 1, sleeps => (.failed, [], sleeps)
  | resp :: rest, rl + 1, sleeps =>
    match resp with
    | .ok out => (.got out, rest, sleeps)
    | .err e =>
      if 1 ≤ rl ∧ rateLimited e then innerRun firstAttempt rest rl (sleeps + 1)
      else if firstAttempt ∧ imageErr e then (.switch, rest, sleeps)
      else (.failed, rest, sleeps)

/-- Terminal outcome of the styling retry loop: success means the loop
produced an output and control proceeds to output extraction. -/
inductive StyleResult
  | success (out : String)
  | failure
deriving DecidableEq

/-- The retry/fallback core of `replicate_style.style_with_replicate` (the
double loop over attempts and retries), driven by a script of backend
responses; `max_retries = 3` per mode, and the mode switch to prompt-only
happens at most once.  Returns the outcome and the number of backoff
sleeps. -/
def style_with_replicate (script : List BackendResp) : StyleResult × Nat :=
  match innerRun true script 3 0 with
  | (.got out, _, sleeps) => (.success out, sleeps)
  | (.failed, _, sleeps) => (.failure, sleeps)
  | (.switch, rest, sleeps) =>
    match innerRun false rest 3 sleeps with
    | (.got out, _, sleeps') => (.success out, sleeps')
    | (_, _, sleeps') => (.failure, sleeps')

example :
    style_with_replicate [.err "429 too many requests", .err "throttled", .ok "img.png"] =
      (.success "img.png", 2) := by decide

example :
    style_with_replicate [.err "429", .err "429", .err "429"] = (.failure, 2) := by decide

example :
    style_with_replicate [.err "unexpected keyword image", .ok "img.png"] =
      (.success "img.png", 0) := by decide

/-- Claim C1 counterexample: `parseSingleColor("1.2, 0.1, 10")` does not
fail: the code divides any first value above 1 by 100, so L = 1.2 becomes
0.012 = 3/250, which is in range, and the parse succeeds. -/
theorem C1_counterexample :
    parse_oklch_input "1.2, 0.1, 10" = some (mkRat 3 250, mkRat 1 10, 10) := by decide

/-- Claim C1 (amended): an input whose three parsed values fail the range
check after the percent normalisation (the first value is divided by 100
exactly when it exceeds 1) makes `parse_oklch_input` fail. -/
theorem C1_out_of_range_after_normalization (raw : String) (l c h : Rat)
    (hv : rawOklchValues raw.data = some (l, c, h))
    (hr : ¬ oklchInRange (normalizeL l) c h) :
    parse_oklch_input raw = none := by
  unfold parse_oklch_input
  rw [parseOklch_eq_check, hv]
  simp [hr]

/-- Witness for C1: L = 150 still exceeds 1 after division by 100, so the
parse fails. -/
theorem C1_witness : parse_oklch_input "150, 0.1, 10" = none :=
  C1_out_of_range_after_normalization "150, 0.1, 10" 150 (mkRat 1 10) 10
    (by decide) (by decide)

/-- Claim C2 counterexample: `hexToRGB("8B451")` does not fail: the slices
`[0:2]`, `[2:4]`, `[4:6]` of a five-character string are `8B`, `45`, `1`,
all of which `int(·, 16)` accepts, so the call returns `(139, 69, 1)`. -/
theorem C2_counterexample : hex_to_rgb "8B451" = some (139, 69, 1) := by decide

/-- Claim C9 counterexample: a trailing `%` on the first token is not
interpreted as division by 100: in `oklch(0.9% 0.1 10)` the `%` is stripped
and 0.9, not exceeding 1, is left undivided, so L = 0.9 rather than
0.009. -/
theorem C9_counterexample :
    parse_oklch_input "oklch(0.9% 0.1 10)" = some (mkRat 9 10, mkRat 1 10, 10) ∧
      (mkRat 9 10 : Rat) ≠ mkRat 9 1000 := by decide

/-- Claim C9 (amended): `parse_oklch_input` strips a case-insensitive
`oklch(...)` wrapper; `%` characters are removed from the first token and
the value is divided by 100 exactly when it exceeds 1; in particular
`oklch(72.6% 0.129 253.06)` (in either case) succeeds with L = 0.726, and
any input whose parsed values pass the range check after that normalisation
succeeds with the normalised first value. -/
theorem C9_wrapper_and_percent :
    parse_oklch_input "oklch(72.6% 0.129 253.06)" =
      some (mkRat 363 500, mkRat 129 1000, mkRat 12653 50) ∧
    parse_oklch_input "OKLCH(72.6% 0.129 253.06)" =
      some (mkRat 363 500, mkRat 129 1000, mkRat 12653 50) ∧
    ∀ raw l c h, rawOklchValues raw.data = some (l, c, h) →
      oklchInRange (normalizeL l) c h →
      parse_oklch_input raw = some (normalizeL l, c, h) := by
  refine ⟨by decide, by decide, ?_⟩
  intro raw l c h hv hr
  unfold parse_oklch_input
  rw [parseOklch_eq_check, hv]
  simp [hr]

/-- Witness for C9: a plain in-range triple parses to itself. -/
theorem C9_witness : parse_oklch_input "0.5 0.2 100" = some (mkRat 1 2, mkRat 1 5, 100) :=
  C9_wrapper_and_percent.2.2 "0.5 0.2 100" (mkRat 1 2) (mkRat 1 5) 100
    (by decide) (by decide)

theorem parseHexSlice_isSome (s : List Char) :
    (parseHexSlice s).isSome = (decide (s ≠ []) && s.all isHexDigit) := by
  unfold parseHexSlice
  split <;> rename_i h
  · simp [h.1, h.2]
  · push_neg at h
    by_cases he : s = []
    · simp [he]
    · simp [he, h he]

theorem hex_to_rgb_isSome (s : String) :
    (hex_to_rgb s).isSome =
      ((parseHexSlice (pySlice (s.data.dropWhile fun c => c = '#') 0 2)).isSome &&
       (parseHexSlice (pySlice (s.data.dropWhile fun c => c = '#') 2 4)).isSome &&
       (parseHexSlice (pySlice (s.data.dropWhile fun c => c = '#') 4 6)).isSome) := by
  unfold hex_to_rgb
  dsimp only
  cases parseHexSlice (pySlice (s.data.dropWhile fun c => c = '#') 0 2) <;>
    cases parseHexSlice (pySlice (s.data.dropWhile fun c => c = '#') 2 4) <;>
    cases parseHexSlice (pySlice (s.data.dropWhile fun c => c = '#') 4 6) <;> rfl

/-- Claim C2 (amended): after stripping leading `#` characters, the call
succeeds exactly when at least five characters remain and the first six (or
all five) are hexadecimal digits; a fifth-through-sixth slice of one digit is
accepted and characters beyond the sixth are ignored, so `"8B451"` yields
`(139, 69, 1)` instead of failing. -/
theorem C2_short_hex_accepted (s : String) :
    (hex_to_rgb s).isSome =
      (decide (5 ≤ (s.data.dropWhile fun c => c = '#').length) &&
        ((s.data.dropWhile fun c => c = '#').take 6).all isHexDigit) := by
  rw [hex_to_rgb_isSome]
  generalize (s.data.dropWhile fun c => c = '#') = t
  rcases t with _ | ⟨a, _ | ⟨b, _ | ⟨c, _ | ⟨d, _ | ⟨e, _ | ⟨f, rest⟩⟩⟩⟩⟩⟩ <;>
    simp [parseHexSlice_isSome, pySlice] <;>
    cases isHexDigit a <;> cases isHexDigit b <;> cases isHexDigit c <;>
    cases isHexDigit d <;> cases isHexDigit e <;> simp

theorem delete_mono (hidden : List String) (id : String) :
    hidden ⊆ (delete_theme_from_file hidden id).1 := by
  unfold delete_theme_from_file
  split
  · exact fun x hx => hx
  · dsimp only
    split
    · exact fun x hx => hx
    · exact fun x hx => List.mem_append_left _ hx

theorem runDeletes_mono (ops : List String) :
    ∀ hidden, hidden ⊆ runDeletes hidden ops := by
  induction ops with
  | nil => exact fun hidden x hx => hx
  | cons id rest ih =>
    intro hidden x hx
    exact ih _ (delete_mono hidden id hx)

theorem delete_mem (hidden : List String) (id : String)
    (h1 : id ≠ "") (h2 : id ≠ "From scratch") :
    id ∈ (delete_theme_from_file hidden id).1 := by
  unfold delete_theme_from_file
  rw [if_neg (by simp [h1, h2])]
  dsimp only
  split
  · assumption
  · exact List.mem_append_right _ (List.mem_singleton_self id)

/-- Claim C3: deleting a theme id (other than the reserved non-theme entries
`""` and `"From scratch"`) adds it to the hidden list; after any sequence of
further deletes, and for any id list the theme scanner later reports (even
one in which the id has been recreated out-of-band), the "available" listing
excludes the id; and the hidden list only ever grows. -/
theorem C3_delete_tombstone (hidden : List String) (id : String)
    (h1 : id ≠ "") (h2 : id ≠ "From scratch")
    (ops : List String) (themes : List String) :
    id ∉ availableThemes themes (runDeletes (delete_theme_from_file hidden id).1 ops) ∧
    hidden ⊆ runDeletes (delete_theme_from_file hidden id).1 ops := by
  have hmem : id ∈ runDeletes (delete_theme_from_file hidden id).1 ops :=
    runDeletes_mono ops _ (delete_mem hidden id h1 h2)
  refine ⟨?_, fun x hx => runDeletes_mono ops _ (delete_mono hidden id hx)⟩
  intro hav
  unfold availableThemes at hav
  rcases List.mem_cons.mp hav with h | h
  · exact h2 h
  · have hdec := (List.mem_filter.mp h).2
    rw [decide_eq_true_eq] at hdec
    exact hdec hmem

/-- Witness for C3: after deleting `night`, the listing excludes `night`
even though the scanner reports it again, and the prior hidden list is
preserved. -/
theorem C3_witness :
    "night" ∉ availableThemes ["night", "day"]
      (runDeletes (delete_theme_from_file ["old"] "night").1 ["day"]) ∧
    ["old"] ⊆ runDeletes (delete_theme_from_file ["old"] "night").1 ["day"] :=
  C3_delete_tombstone ["old"] "night" (by decide) (by decide) ["day"] ["night", "day"]

theorem lookup_self_map {β : Type} (f : String → β) :
    ∀ (ks : List String) (k : String), k ∈ ks →
      (ks.map fun x => (x, f x)).lookup k = some (f k) := by
  intro ks
  induction ks with
  | nil => intro k hk; cases hk
  | cons a rest ih =>
    intro k hk
    by_cases h : k = a
    · subst h
      simp [List.lookup]
    · rcases List.mem_cons.mp hk with heq | hmem
      · exact absurd heq h
      · simpa [List.lookup, beq_eq_false_iff_ne.mpr h] using ih k hmem

/-- Claim C4: `load_theme_colors` is total and every one of the 11 role keys
is populated in its result — from the stored record when the key is present
there, and from the hard-coded default theme otherwise (an absent file is an
empty stored record, so every key falls back to the default). -/
theorem C4_load_theme_colors_total (theme_name : String)
    (stored : Option (List (String × String))) (k : String) (hk : k ∈ THEME_KEYS) :
    (load_theme_colors theme_name stored).lookup k =
      some (if theme_name = "" ∨ theme_name = "From scratch"
        then (DEFAULT_THEME.lookup k).getD "#000000"
        else ((load_theme stored).lookup k).getD ((DEFAULT_THEME.lookup k).getD "#000000")) := by
  unfold load_theme_colors
  by_cases h : theme_name = "" ∨ theme_name = "From scratch"
  · rw [if_pos h, if_pos h]
    exact (by decide :
      ∀ k ∈ THEME_KEYS, DEFAULT_THEME.lookup k =
        some ((DEFAULT_THEME.lookup k).getD "#000000")) k hk
  · rw [if_neg h, if_neg h]
    exact lookup_self_map _ THEME_KEYS k hk

/-- Witness for C4: a stored record carrying only `bg` yields its own `bg`
value; all other keys would come from the default theme. -/
theorem C4_witness :
    (load_theme_colors "sunset" (some [("bg", "#111111")])).lookup "bg" =
      some (if ("sunset" : String) = "" ∨ ("sunset" : String) = "From scratch"
        then (DEFAULT_THEME.lookup "bg").getD "#000000"
        else ((load_theme (some [("bg", "#111111")])).lookup "bg").getD
          ((DEFAULT_THEME.lookup "bg").getD "#000000")) :=
  C4_load_theme_colors_total "sunset" (some [("bg", "#111111")]) "bg" (by decide)

/-- Claim C5: pushing a theme with the credential in place first issues a
`GET` for the theme's path; when the resource does not exist the `PUT`
payload carries no version token (a create), and when it exists with a
non-empty `sha` the `PUT` payload carries exactly that token (an update). -/
theorem C5_push_create_or_update (token : Option String) (filename : String)
    (remote : String → Option (Option String)) (putStatus : Nat)
    (htok : tokenMissing token = false) :
    (remote ("themes/" ++ filename ++ ".json") = none →
      (_save_theme_to_github token filename remote putStatus).2 =
        [GhRequest.get ("themes/" ++ filename ++ ".json"),
         GhRequest.put ("themes/" ++ filename ++ ".json") none]) ∧
    (∀ s, remote ("themes/" ++ filename ++ ".json") = some (some s) → s ≠ "" →
      (_save_theme_to_github token filename remote putStatus).2 =
        [GhRequest.get ("themes/" ++ filename ++ ".json"),
         GhRequest.put ("themes/" ++ filename ++ ".json") (some s)]) := by
  unfold _save_theme_to_github
  rw [htok]
  constructor
  · intro hnone
    rw [if_neg (by simp)]
    dsimp only
    rw [hnone]
    split <;> rfl
  · intro s hsome hne
    rw [if_neg (by simp)]
    dsimp only
    rw [hsome]
    dsimp only
    rw [if_neg hne]
    split <;> rfl

/-- Witness for C5: a push with no existing remote resource issues a
token-free `PUT` after the `GET`. -/
theorem C5_witness :
    (_save_theme_to_github (some "tok") "night" (fun _ => none) 201).2 =
      [GhRequest.get ("themes/" ++ "night" ++ ".json"),
       GhRequest.put ("themes/" ++ "night" ++ ".json") none] :=
  (C5_push_create_or_update (some "tok") "night" (fun _ => none) 201 (by decide)).1 rfl

/-- Claim C8: with the bearer credential absent (unset or empty), both the
remote push and the remote delete return the credential-missing failure with
an empty request trace — no network request is issued. -/
theorem C8_credential_missing_no_network (token : Option String) (filename : String)
    (remote : String → Option (Option String)) (status : Nat)
    (h : tokenMissing token = true) :
    _save_theme_to_github token filename remote status =
      ((false, "GITHUB_TOKEN not configured (add to Streamlit secrets for Cloud)"), []) ∧
    _delete_theme_from_github token filename remote status =
      ((false, "GITHUB_TOKEN not configured"), []) := by
  unfold _save_theme_to_github _delete_theme_from_github
  rw [h]
  exact ⟨rfl, rfl⟩

/-- Witness for C8: an unset token short-circuits both operations. -/
theorem C8_witness :
    _save_theme_to_github none "night" (fun _ => some (some "abc")) 200 =
      ((false, "GITHUB_TOKEN not configured (add to Streamlit secrets for Cloud)"), []) ∧
    _delete_theme_from_github none "night" (fun _ => some (some "abc")) 200 =
      ((false, "GITHUB_TOKEN not configured"), []) :=
  C8_credential_missing_no_network none "night" (fun _ => some (some "abc")) 200 (by decide)

/-- Claim C6: with the 3-attempt budget, a backend that raises rate-limited
errors on the first two attempts and succeeds on the third drives the job to
success with the third attempt's output, after exactly two backoff
sleeps. -/
theorem C6_two_rate_limits_then_success (e1 e2 out : String) (rest : List BackendResp)
    (h1 : rateLimited e1 = true) (h2 : rateLimited e2 = true) :
    style_with_replicate (.err e1 :: .err e2 :: .ok out :: rest) = (.success out, 2) := by
  unfold style_with_replicate
  have hloop : innerRun true (.err e1 :: .err e2 :: .ok out :: rest) 3 0 =
      (.got out, rest, 2) := by
    simp [innerRun, h1, h2]
  rw [hloop]

/-- Witness for C6: two concrete rate-limit messages then a success. -/
theorem C6_witness :
    style_with_replicate
      [.err "429 too many requests", .err "Throttled by server", .ok "poster_styled.png"] =
      (.success "poster_styled.png", 2) :=
  C6_two_rate_limits_then_success "429 too many requests" "Throttled by server"
    "poster_styled.png" [] (by decide) (by decide)

/-- The keys contributed by the well-formed lines of a block, in order. -/
def lineKeys (block : String) : List String :=
  (blockLines block).filterMap lineKey

/-- Key-set effect of one dict insertion. -/
def addKey (ks : List String) (k : String) : List String :=
  if k ∈ ks then ks else ks ++ [k]

/-- Key-set effect of a sequence of dict insertions. -/
def foldKeys (ks : List String) : List String → List String
  | [] => ks
  | k :: rest => foldKeys (addKey ks k) rest

theorem lookup_isSome_iff_mem (d : List (String × String)) (k : String) :
    (d.lookup k).isSome = true ↔ k ∈ d.map Prod.fst := by
  induction d with
  | nil => simp [List.lookup]
  | cons p d ih =>
    obtain ⟨a, b⟩ := p
    by_cases h : k = a
    · subst h
      simp [List.lookup]
    · simp [List.lookup, beq_eq_false_iff_ne.mpr h, h, ih]

theorem dictInsert_keys (d : List (String × String)) (k v : String) :
    (dictInsert d k v).map Prod.fst = addKey (d.map Prod.fst) k := by
  unfold dictInsert addKey
  by_cases h : (d.lookup k).isSome = true
  · rw [if_pos h, if_pos ((lookup_isSome_iff_mem d k).mp h)]
    rw [List.map_map]
    apply List.map_congr_left
    intro p _
    dsimp only [Function.comp]
    split <;> rename_i hh
    · exact hh.symm
    · rfl
  · rw [if_neg h, if_neg fun hm => h ((lookup_isSome_iff_mem d k).mpr hm)]
    simp

theorem processLines_keys (toHex : Rat → Rat → Rat → String) :
    ∀ (lines : List (List Char)) (d : List (String × String)),
      (processLines true toHex lines d).map Prod.fst =
        foldKeys (d.map Prod.fst) (lines.filterMap lineKey) := by
  intro lines
  induction lines with
  | nil => intro d; rfl
  | cons line rest ih =>
    intro d
    unfold processLines
    cases hl : lineKeyVal line with
    | none =>
      have hk : lineKey line = none := by simp [lineKey, hl]
      rw [ih]
      simp [List.filterMap_cons, hk]
    | some kv =>
      have hk : lineKey line = some kv.1 := by simp [lineKey, hl]
      dsimp only
      have hred : (if true = true then
          processLines true toHex rest (dictInsert d kv.1 (toHex kv.2.1 kv.2.2.1 kv.2.2.2))
        else processLines true toHex rest d) =
          processLines true toHex rest (dictInsert d kv.1 (toHex kv.2.1 kv.2.2.1 kv.2.2.2)) :=
        rfl
      rw [hred, ih, dictInsert_keys]
      simp only [List.filterMap_cons, hk]
      rfl

theorem foldKeys_le_length (ks : List String) :
    ∀ acc : List String, acc.length ≤ (foldKeys acc ks).length := by
  induction ks with
  | nil => intro acc; exact le_refl _
  | cons k rest ih =>
    intro acc
    refine le_trans ?_ (ih (addKey acc k))
    unfold addKey
    split
    · exact le_refl _
    · simp

theorem foldKeys_nil_iff (ks : List String) : foldKeys [] ks = [] ↔ ks = [] := by
  cases ks with
  | nil => simp [foldKeys]
  | cons k rest =>
    refine iff_of_false ?_ (List.cons_ne_nil k rest)
    intro h
    have h1 := foldKeys_le_length rest (addKey [] k)
    have h2 : foldKeys (addKey [] k) rest = [] := h
    rw [h2] at h1
    simp [addKey] at h1

theorem foldKeys_length (ks : List String) :
    ∀ acc : List String, ks.Nodup → (∀ k ∈ ks, k ∉ acc) →
      (foldKeys acc ks).length = acc.length + ks.length := by
  induction ks with
  | nil => intro acc _ _; simp [foldKeys]
  | cons k rest ih =>
    intro acc hnd hdisj
    have hk : k ∉ acc := hdisj k (List.mem_cons_self k rest)
    rw [show foldKeys acc (k :: rest) = foldKeys (addKey acc k) rest from rfl]
    rw [show addKey acc k = acc ++ [k] from if_neg hk]
    rw [ih (acc ++ [k]) (List.nodup_cons.mp hnd).2 ?_]
    · simp
      omega
    · intro x hx hmem
      rcases List.mem_append.mp hmem with hacc | hsing
      · exact hdisj x (List.mem_cons_of_mem _ hx) hacc
      · exact (List.nodup_cons.mp hnd).1 ((List.mem_singleton.mp hsing) ▸ hx)

/-- Claim C7 (amended): with the colour library available, the block parser
returns the "nothing parsed" signal `none` exactly when no line is
well-formed (contributes a key); when the keys of the well-formed lines are
pairwise distinct — in particular for any block with M distinct well-formed
lines — the returned mapping has exactly that many entries.  (Two well-formed
lines with the same role key collapse into one entry, which is what the
unamended claim misses.) -/
theorem C7_entry_count (toHex : Rat → Rat → Rat → String) (block : String) :
    (parse_oklch_palette_block true toHex block = none ↔ lineKeys block = []) ∧
    ((lineKeys block).Nodup → ∀ d, parse_oklch_palette_block true toHex block = some d →
      d.length = (lineKeys block).length) := by
  have hkeys : (processLines true toHex (splitLinesPy (trimChars block.data)) []).map Prod.fst =
      foldKeys [] (lineKeys block) := by
    simpa [lineKeys, blockLines] using
      processLines_keys toHex (splitLinesPy (trimChars block.data)) []
  constructor
  · unfold parse_oklch_palette_block
    split <;> rename_i hempty
    · have hlines : blockLines block = [] := by
        unfold blockLines
        rw [hempty]
        rfl
      simp [lineKeys, hlines]
    · dsimp only
      constructor
      · intro h
        split at h <;> rename_i hres
        · rw [hres] at hkeys
          exact (foldKeys_nil_iff _).mp hkeys.symm
        · cases h
      · intro h
        rw [if_pos ?_]
        have hmap : (processLines true toHex (splitLinesPy (trimChars block.data)) []).map
            Prod.fst = [] := by
          rw [hkeys, h]
          rfl
        exact List.map_eq_nil_iff.mp hmap
  · intro hnd d hd
    unfold parse_oklch_palette_block at hd
    split at hd <;> rename_i hempty
    · cases hd
    · dsimp only at hd
      split at hd <;> rename_i hres
      · cases hd
      · injection hd with hd'
        subst hd'
        have hlen : (processLines true toHex (splitLinesPy (trimChars block.data)) []).length =
            (foldKeys [] (lineKeys block)).length := by
          rw [← hkeys, List.length_map]
        rw [hlen, foldKeys_length (lineKeys block) [] hnd
          fun k _ hk => absurd hk (List.not_mem_nil k)]
        simp

/-- Claim C7 counterexample: a three-line block with two well-formed lines
that share the `Background` label yields a one-entry mapping, not a
two-entry one. -/
theorem C7_counterexample :
    (blockLines "Background: 0.5 0.1 10\nBackground: 0.6 0.1 10\njunk").length = 3 ∧
    ((blockLines "Background: 0.5 0.1 10\nBackground: 0.6 0.1 10\njunk").filter
      fun l => (lineKeyVal l).isSome).length = 2 ∧
    (parse_oklch_palette_block true hxConst
      "Background: 0.5 0.1 10\nBackground: 0.6 0.1 10\njunk").map List.length =
      some 1 := by decide

/-- Witness for C7: a block with one well-formed line and one junk line is
not `none` and returns exactly one entry. -/
theorem C7_witness :
    (parse_oklch_palette_block true hxConst "Background: 0.5 0.1 10\njunk" = none ↔
      lineKeys "Background: 0.5 0.1 10\njunk" = []) ∧
    ([("bg", "#000000")] : List (String × String)).length =
      (lineKeys "Background: 0.5 0.1 10\njunk").length :=
  ⟨(C7_entry_count hxConst "Background: 0.5 0.1 10\njunk").1,
   (C7_entry_count hxConst "Background: 0.5 0.1 10\njunk").2 (by decide)
     [("bg", "#000000")] (by decide)⟩

/-- Claim C10: when the colour-conversion library is not importable
(`HAS_OKLCH` false), the block parser returns the "nothing parsed" signal
for every input block — even one whose every line is well-formed — since the
guard `if key and HAS_OKLCH` never lets an entry through. -/
theorem C10_no_oklch_lib_nothing_parsed (toHex : Rat → Rat → Rat → String)
    (block : String) :
    parse_oklch_palette_block false toHex block = none := by
  have hproc : ∀ (lines : List (List Char)) (d : List (String × String)),
      processLines false toHex lines d = d := by
    intro lines
    induction lines with
    | nil => intro d; rfl
    | cons line rest ih =>
      intro d
      unfold processLines
      cases lineKeyVal line with
      | none => exact ih d
      | some kv => exact ih d
  unfold parse_oklch_palette_block
  split
  · rfl
  · simp [hproc]
